import Mathlib

/-!
# Verification of the off-net feasibility simulator

Shallow embedding of the core of `simulation.py` (class `OffNetSimulator`):
dataset normalization (`adjust_dataset`), the AWS bandwidth sub-procedure
(`compute_aws_bandwidth`), and the day-by-day cost simulation
(`run_simulation`).

Modelling conventions:
* Python floats are embedded as exact rationals (`ℚ`); Python ints as `Nat`
  where the source constrains them to be non-negative counts.
* The day loop is a `List.foldl` over `List.range time_horizon_days`,
  carrying the same five lists the Python code builds; the in-place
  `xs[-1] += c` update is `bumpLast`.
* `numpy.cumsum` is embedded as the prefix-sum list `cumsum`.
* Python exceptions are made explicit: `runSimulationE` returns
  `Except PyError _`.  The only exceptions the source can raise are an
  integer `ZeroDivisionError` (from `day % len(dataset)` on an empty
  dataset, or `(day+1) % hardware_life_cycle_days` when the lifecycle is
  zero) and a pandas `IndexError` (from `df[...].iloc[-1]` on an empty
  timeline, which happens exactly when `time_horizon_days = 0`).
  NumPy *float* division by zero (as in `adjust_dataset` on a zero-mean
  dataset) emits only a RuntimeWarning and produces inf/nan — it does not
  raise — so `adjust_datasetE` has no error case.  `PyError.invalidInput`
  is the error kind named by the documented error taxonomy; the code never
  raises it, since it performs no input validation.
* The `:.2f` numeric formatting inside the AWS-mode recommendation string
  is not modelled (the rationals are printed exactly); no property below
  depends on the AWS recommendation text.
-/

/-- One row of the traffic dataset: the `num_users` / `num_requests`
columns of the pandas DataFrame. -/
structure Row where
  num_users : ℚ
  num_requests : ℚ
deriving DecidableEq, Repr, Inhabited

/-- `SimulationParameters` from `models.py` (with the source's defaults).
`time_horizon_days`, `avg_num_users` and `hardware_life_cycle_years` are
ints in the source; the latter two enter only float arithmetic, so
`avg_num_users` is embedded in `ℚ` directly. -/
structure SimulationParameters where
  time_horizon_days : Nat
  avg_request_size_kb : ℚ
  avg_num_users : ℚ
  off_net_bandwidth_cost_per_gb : ℚ
  on_net_bandwidth_cost_per_gb : ℚ := 0
  hardware_cost_off_net_per_month : ℚ := 0
  hardware_cost_on_net_per_month : ℚ := 0
  upfront_hardware_cost_off_net : ℚ := 0
  upfront_hardware_cost_on_net : ℚ := 0
  hardware_life_cycle_years : Nat := 5
  transfer_link_cost_per_gbps : ℚ := 0
  sla_percentage : ℚ := 0
deriving DecidableEq, Repr

/-- Mean of the `num_users` column (`self.user_data["num_users"].mean()`). -/
def meanUsers (data : List Row) : ℚ :=
  (data.map Row.num_users).sum / (data.length : ℚ)

/-- `OffNetSimulator.adjust_dataset`: multiply every row's `num_users` and
`num_requests` by `adjustment_factor = avg_num_users / mean(num_users)`. -/
def adjust_dataset (p : SimulationParameters) (data : List Row) : List Row :=
  let adjustment_factor := p.avg_num_users / meanUsers data
  data.map fun r =>
    ⟨r.num_users * adjustment_factor, r.num_requests * adjustment_factor⟩

/-- Error kinds observable from the embedded Python code.  `invalidInput`
is the kind the documented error taxonomy prescribes; no code path
produces it. -/
inductive PyError where
  | invalidInput
  | zeroDivisionError
  | indexError
deriving DecidableEq, Repr

/-- Whether an `Except` value is a success. -/
def exceptOk {ε α : Type} : Except ε α → Bool
  | .ok _ => true
  | .error _ => false

/-- Exception-aware view of `adjust_dataset`.  No operation in the Python
body can raise: `mean()` of an empty series is NaN, and NumPy float
division by a zero mean yields inf with a RuntimeWarning, not an
exception.  Hence the result is always `ok`.  (On a zero-mean dataset the
Python values are inf/nan where the rational embedding puts `0`; the
theorems about degenerate inputs below use only the absence of an error,
never those values.) -/
def adjust_datasetE (p : SimulationParameters) (data : List Row) :
    Except PyError (List Row) :=
  .ok (adjust_dataset p data)

/-- `OffNetSimulator.compute_aws_bandwidth`, exactly as in the source —
including the conversion `avg_request_size_kb / 1_048_576 / 1024` on
line 20.  Returns `(required_bandwidth_gbps, transfer_link_cost_daily)`. -/
def compute_aws_bandwidth (p : SimulationParameters) (data : List Row) :
    ℚ × ℚ :=
  let total_requests := (data.map Row.num_requests).sum
  let requests_per_second := total_requests / (24 * 60 * 60)
  let data_volume_per_second_gbps :=
    requests_per_second * (p.avg_request_size_kb / 1048576 / 1024)
  let required_bandwidth_gbps :=
    data_volume_per_second_gbps * (p.sla_percentage / 100)
  let transfer_link_cost_daily :=
    required_bandwidth_gbps * p.transfer_link_cost_per_gbps / 30
  (required_bandwidth_gbps, transfer_link_cost_daily)

/-- The bandwidth-requirement sub-procedure as the spec (§4.3) and claim
C2 state it: per-request size in GB is `avg_request_size_kb / 1_048_576`
(no further division), monthly transfer cost is
`required_bandwidth_gbps * transfer_link_cost_per_gbps`, daily cost is
monthly / 30.  Written from the spec's words, for comparison with the
source's `compute_aws_bandwidth`. -/
def compute_aws_bandwidth_specified (p : SimulationParameters)
    (data : List Row) : ℚ × ℚ :=
  let total_requests := (data.map Row.num_requests).sum
  let requests_per_second := total_requests / 86400
  let required_bandwidth_gbps :=
    requests_per_second * (p.avg_request_size_kb / 1048576) *
      (p.sla_percentage / 100)
  (required_bandwidth_gbps,
    required_bandwidth_gbps * p.transfer_link_cost_per_gbps / 30)

/-- `avg_request_size_gb = self.params.avg_request_size_kb / 1_048_576`
(run_simulation line 28, commented "Convert KB to GB"). -/
def avg_request_size_gb (p : SimulationParameters) : ℚ :=
  p.avg_request_size_kb / 1048576

/-- `hardware_life_cycle_days = hardware_life_cycle_years * 365`. -/
def hardware_life_cycle_days (p : SimulationParameters) : Nat :=
  p.hardware_life_cycle_years * 365

/-- The dataset row consumed on (0-based) loop day `day`:
`self.user_data.loc[day % len(self.user_data)]`. -/
def dailyRow (data : List Row) (day : Nat) : Row :=
  data.getD (day % data.length) ⟨0, 0⟩

/-- `daily_data_volume = daily_requests * avg_request_size_gb`. -/
def daily_data_volume (p : SimulationParameters) (data : List Row)
    (day : Nat) : ℚ :=
  (dailyRow data day).num_requests * avg_request_size_gb p

/-- The day's on-net cost (`on_net_total_cost`), per compute mode:
AWS mode uses the daily transfer-link cost from `compute_aws_bandwidth`
(recomputed by the source on every iteration), Canvas mode uses the
on-net bandwidth cost. -/
def on_net_total_cost (p : SimulationParameters) (data : List Row)
    (computeAws : Bool) (day : Nat) : ℚ :=
  if computeAws then
    p.hardware_cost_on_net_per_month / 30 + (compute_aws_bandwidth p data).2
  else
    daily_data_volume p data day * p.on_net_bandwidth_cost_per_gb +
      p.hardware_cost_on_net_per_month / 30

/-- The day's off-net cost (`off_net_total_cost`).  The source writes the
same expression in both arms of the `if compute_aws` branch (lines 51-52
and 56-57); the branch is kept here as in the source. -/
def off_net_total_cost (p : SimulationParameters) (data : List Row)
    (computeAws : Bool) (day : Nat) : ℚ :=
  if computeAws then
    daily_data_volume p data day * p.off_net_bandwidth_cost_per_gb +
      p.hardware_cost_off_net_per_month / 30
  else
    daily_data_volume p data day * p.off_net_bandwidth_cost_per_gb +
      p.hardware_cost_off_net_per_month / 30

/-- The five lists the day loop builds. -/
structure LoopState where
  on_net_costs : List ℚ
  off_net_costs : List ℚ
  sent_requests : List ℚ
  sent_data_gb : List ℚ
  active_users : List ℚ
deriving DecidableEq, Repr

/-- Python's `xs[-1] += c` on a list: add `c` to the last element. -/
def bumpLast : List ℚ → ℚ → List ℚ
  | [], _ => []
  | [a], c => [a + c]
  | a :: b :: rest, c => a :: bumpLast (b :: rest) c

/-- One iteration of the day loop (`for day in range(T_days)`): apply the
lifecycle refresh to the last list elements when
`(day + 1) % hardware_life_cycle_days == 0`, then append the day's
metrics. -/
def simStep (p : SimulationParameters) (data : List Row)
    (computeAws : Bool) (s : LoopState) (day : Nat) : LoopState :=
  let s1 :=
    if (day + 1) % hardware_life_cycle_days p = 0 then
      { s with
        on_net_costs := bumpLast s.on_net_costs p.upfront_hardware_cost_on_net
        off_net_costs :=
          bumpLast s.off_net_costs p.upfront_hardware_cost_off_net }
    else s
  { on_net_costs := s1.on_net_costs ++ [on_net_total_cost p data computeAws day]
    off_net_costs :=
      s1.off_net_costs ++ [off_net_total_cost p data computeAws day]
    sent_requests := s1.sent_requests ++ [(dailyRow data day).num_requests]
    sent_data_gb := s1.sent_data_gb ++ [daily_data_volume p data day]
    active_users := s1.active_users ++ [(dailyRow data day).num_users] }

/-- Loop state before day 0: the cost lists are seeded with the upfront
hardware costs, the metric lists are empty. -/
def initState (p : SimulationParameters) : LoopState :=
  ⟨[p.upfront_hardware_cost_on_net], [p.upfront_hardware_cost_off_net],
    [], [], []⟩

/-- The whole day loop. -/
def runLoop (p : SimulationParameters) (data : List Row)
    (computeAws : Bool) : LoopState :=
  (List.range p.time_horizon_days).foldl (simStep p data computeAws)
    (initState p)

/-- `numpy.cumsum`: element `k` is the sum of the first `k + 1` inputs. -/
def cumsum (xs : List ℚ) : List ℚ :=
  (List.range xs.length).map fun k => (xs.take (k + 1)).sum

/-- One row of the output timeline DataFrame. -/
structure TimelineRow where
  day : Nat
  on_net_cost : ℚ
  off_net_cost : ℚ
  sent_requests : ℚ
  sent_data_volume_gb : ℚ
  active_users : ℚ
deriving DecidableEq, Repr, Inhabited

/-- The timeline DataFrame built after the loop:
`Day = 1..T`, the cost columns are `np.cumsum(costs[:T_days])`, the other
columns are the metric lists. -/
def timeline (p : SimulationParameters) (data : List Row)
    (computeAws : Bool) : List TimelineRow :=
  let s := runLoop p data computeAws
  let onC := cumsum (s.on_net_costs.take p.time_horizon_days)
  let offC := cumsum (s.off_net_costs.take p.time_horizon_days)
  (List.range p.time_horizon_days).map fun k =>
    { day := k + 1
      on_net_cost := onC.getD k 0
      off_net_cost := offC.getD k 0
      sent_requests := s.sent_requests.getD k 0
      sent_data_volume_gb := s.sent_data_gb.getD k 0
      active_users := s.active_users.getD k 0 }

/-- `SimulationResults` from `models.py`. -/
structure SimulationResults where
  timeline : List TimelineRow
  final_recommendation : String
  aws_transfer_link_cost : ℚ
  required_bandwidth_gbps : ℚ
deriving DecidableEq, Repr, Inhabited

/-- `OffNetSimulator.run_simulation`, exceptions made explicit.
`zeroDivisionError` models the integer modulo-by-zero the loop body hits
when the dataset is empty (`day % len(...)`) or the hardware lifecycle is
zero days; `indexError` models `df["On-Net Cost"].iloc[-1]` on the empty
timeline (exactly the `time_horizon_days = 0` case).  In the success case
the recommendation, the AWS transfer-link cost and the required bandwidth
are produced as in the source (Canvas mode leaves the two AWS fields at
their `0.0` initialisation). -/
def runSimulationE (p : SimulationParameters) (data : List Row)
    (computeAws : Bool) : Except PyError SimulationResults :=
  if 1 ≤ p.time_horizon_days ∧
      (data.length = 0 ∨ hardware_life_cycle_days p = 0) then
    .error .zeroDivisionError
  else
    let tl := timeline p data computeAws
    match tl.getLast? with
    | none => .error .indexError
    | some lastRow =>
      let total_on_net := lastRow.on_net_cost
      let total_off_net := lastRow.off_net_cost
      if computeAws then
        let bw := (compute_aws_bandwidth p data).1
        let transfer_link_cost := bw * p.transfer_link_cost_per_gbps
        .ok { timeline := tl
              final_recommendation :=
                "Required bandwidth: " ++ toString bw ++
                  " Gbps. Transfer link cost: $" ++
                  toString transfer_link_cost ++ "/month."
              aws_transfer_link_cost := transfer_link_cost
              required_bandwidth_gbps := bw }
      else
        .ok { timeline := tl
              final_recommendation :=
                if total_off_net < total_on_net then
                  "Off-net solution is more cost-effective."
                else
                  "On-net solution is more cost-effective."
              aws_transfer_link_cost := 0
              required_bandwidth_gbps := 0 }

/-- The AWS-mode day loop as the spec (§4.2 step d, §4.3, design note)
prescribes it: `compute_aws_bandwidth` is evaluated once before the loop
and its value reused on every day.  Written from the spec's words, for
the refinement claim C9. -/
def runLoopHoisted (p : SimulationParameters) (data : List Row) :
    LoopState :=
  let pair := compute_aws_bandwidth p data
  (List.range p.time_horizon_days).foldl
    (fun s day =>
      let s1 :=
        if (day + 1) % hardware_life_cycle_days p = 0 then
          { s with
            on_net_costs :=
              bumpLast s.on_net_costs p.upfront_hardware_cost_on_net
            off_net_costs :=
              bumpLast s.off_net_costs p.upfront_hardware_cost_off_net }
        else s
      { on_net_costs :=
          s1.on_net_costs ++ [p.hardware_cost_on_net_per_month / 30 + pair.2]
        off_net_costs :=
          s1.off_net_costs ++
            [daily_data_volume p data day * p.off_net_bandwidth_cost_per_gb +
              p.hardware_cost_off_net_per_month / 30]
        sent_requests := s1.sent_requests ++ [(dailyRow data day).num_requests]
        sent_data_gb := s1.sent_data_gb ++ [daily_data_volume p data day]
        active_users := s1.active_users ++ [(dailyRow data day).num_users] })
    (initState p)

/-- AWS-mode `run_simulation` with the bandwidth computation hoisted out
of the loop (spec §4.2/§4.3 formulation; compare `runSimulationE _ _
true`). -/
def runSimulationHoistedE (p : SimulationParameters) (data : List Row) :
    Except PyError SimulationResults :=
  if 1 ≤ p.time_horizon_days ∧
      (data.length = 0 ∨ hardware_life_cycle_days p = 0) then
    .error .zeroDivisionError
  else
    let s := runLoopHoisted p data
    let onC := cumsum (s.on_net_costs.take p.time_horizon_days)
    let offC := cumsum (s.off_net_costs.take p.time_horizon_days)
    let tl := (List.range p.time_horizon_days).map fun k =>
      { day := k + 1
        on_net_cost := onC.getD k 0
        off_net_cost := offC.getD k 0
        sent_requests := s.sent_requests.getD k 0
        sent_data_volume_gb := s.sent_data_gb.getD k 0
        active_users := s.active_users.getD k 0 : TimelineRow }
    match tl.getLast? with
    | none => .error .indexError
    | some _ =>
      let bw := (compute_aws_bandwidth p data).1
      let transfer_link_cost := bw * p.transfer_link_cost_per_gbps
      .ok { timeline := tl
            final_recommendation :=
              "Required bandwidth: " ++ toString bw ++
                " Gbps. Transfer link cost: $" ++
                toString transfer_link_cost ++ "/month."
            aws_transfer_link_cost := transfer_link_cost
            required_bandwidth_gbps := bw }

/-! ## Helper lemmas about lists -/

theorem getD_range_map {α : Type} (f : Nat → α) (d : α) {k n : Nat}
    (hk : k < n) : ((List.range n).map f).getD k d = f k := by
  rw [List.getD_eq_getElem?_getD, List.getElem?_map, List.getElem?_range hk]
  rfl

theorem range_map_succ {α : Type} (f : Nat → α) (n : Nat) :
    (List.range (n + 1)).map f = (List.range n).map f ++ [f n] := by
  rw [List.range_succ, List.map_append]
  rfl

theorem bumpLast_append (xs : List ℚ) (a c : ℚ) :
    bumpLast (xs ++ [a]) c = xs ++ [a + c] := by
  induction xs with
  | nil => rfl
  | cons x xs ih =>
    cases xs with
    | nil => rfl
    | cons y ys => simpa [bumpLast] using ih

/-! ## Closed form of the day loop

After `m` iterations the cost lists hold, at index `0`, the upfront seed
and, at index `i + 1`, day `i`'s daily cost — each entry increased by the
upfront cost again if the lifecycle refresh of boundary `i + 1` has
already fired (that refresh is applied by day `i`'s iteration *before*
appending day `i`'s cost, so it lands on the previous entry). -/

/-- Entry `i` of a cost list after `m` loop iterations: seed or daily
cost, plus the lifecycle refresh for boundary `i + 1` when it has fired
(`(i+1) % L = 0` and day `i` has run, i.e. `i + 1 ≤ m`). -/
def costEntry (u : ℚ) (c : Nat → ℚ) (L m i : Nat) : ℚ :=
  (if i = 0 then u else c (i - 1)) +
    (if (i + 1) % L = 0 ∧ i + 1 ≤ m then u else 0)

theorem costEntry_last (u : ℚ) (c : Nat → ℚ) (L m : Nat) :
    costEntry u c L (m + 1) (m + 1) = c m := by
  have h1 : ¬(m + 1 + 1 ≤ m + 1) := by omega
  simp [costEntry, h1]

theorem costEntry_step (u : ℚ) (c : Nat → ℚ) (L m : Nat) :
    (if (m + 1) % L = 0 then
        bumpLast ((List.range (m + 1)).map (costEntry u c L m)) u
      else (List.range (m + 1)).map (costEntry u c L m)) ++ [c m]
      = (List.range (m + 1 + 1)).map (costEntry u c L (m + 1)) := by
  rw [range_map_succ (n := m + 1), costEntry_last]
  by_cases h : (m + 1) % L = 0
  · rw [if_pos h, range_map_succ (n := m), bumpLast_append]
    have h1 : (List.range m).map (costEntry u c L m)
        = (List.range m).map (costEntry u c L (m + 1)) := by
      apply List.map_congr_left
      intro i hi
      rw [List.mem_range] at hi
      have h2 : i + 1 ≤ m := hi
      have h3 : i + 1 ≤ m + 1 := Nat.le_succ_of_le h2
      simp [costEntry, h2, h3]
    have h4 : costEntry u c L m m + u = costEntry u c L (m + 1) m := by
      have h5 : ¬(m + 1 ≤ m) := by omega
      simp [costEntry, h5, h]
    rw [h1, h4, range_map_succ (n := m)]
  · rw [if_neg h]
    congr 1
    apply List.map_congr_left
    intro i hi
    rw [List.mem_range] at hi
    rcases Nat.lt_succ_iff_lt_or_eq.mp hi with hlt | rfl
    · have h2 : i + 1 ≤ m := hlt
      have h3 : i + 1 ≤ m + 1 := Nat.le_succ_of_le h2
      simp [costEntry, h2, h3]
    · simp [costEntry, h]

/-- Closed form of the loop state after `m` iterations. -/
theorem runLoop_closed (p : SimulationParameters) (data : List Row)
    (mode : Bool) (m : Nat) :
    (List.range m).foldl (simStep p data mode) (initState p) =
      { on_net_costs := (List.range (m + 1)).map
          (costEntry p.upfront_hardware_cost_on_net
            (on_net_total_cost p data mode) (hardware_life_cycle_days p) m)
        off_net_costs := (List.range (m + 1)).map
          (costEntry p.upfront_hardware_cost_off_net
            (off_net_total_cost p data mode) (hardware_life_cycle_days p) m)
        sent_requests :=
          (List.range m).map fun d => (dailyRow data d).num_requests
        sent_data_gb := (List.range m).map (daily_data_volume p data)
        active_users :=
          (List.range m).map fun d => (dailyRow data d).num_users } := by
  induction m with
  | zero =>
    simp [initState, costEntry, List.range_succ]
  | succ m ih =>
    have hfold : (List.range (m + 1)).foldl (simStep p data mode) (initState p)
        = simStep p data mode
            ((List.range m).foldl (simStep p data mode) (initState p)) m := by
      rw [List.range_succ, List.foldl_append]
      rfl
    rw [hfold, ih]
    by_cases h : (m + 1) % hardware_life_cycle_days p = 0
    · have hon := costEntry_step p.upfront_hardware_cost_on_net
        (on_net_total_cost p data mode) (hardware_life_cycle_days p) m
      have hoff := costEntry_step p.upfront_hardware_cost_off_net
        (off_net_total_cost p data mode) (hardware_life_cycle_days p) m
      rw [if_pos h] at hon hoff
      simp only [simStep, if_pos h, LoopState.mk.injEq]
      refine ⟨hon, hoff, ?_, ?_, ?_⟩ <;> rw [range_map_succ]
    · have hon := costEntry_step p.upfront_hardware_cost_on_net
        (on_net_total_cost p data mode) (hardware_life_cycle_days p) m
      have hoff := costEntry_step p.upfront_hardware_cost_off_net
        (off_net_total_cost p data mode) (hardware_life_cycle_days p) m
      rw [if_neg h] at hon hoff
      simp only [simStep, if_neg h, LoopState.mk.injEq]
      refine ⟨hon, hoff, ?_, ?_, ?_⟩ <;> rw [range_map_succ]

/-- Prefix sums of the cost entries: the first `j + 1` entries (with every
refresh up to boundary `m` applied, `j + 1 ≤ m`) sum to the seed, plus one
extra seed per lifecycle boundary in `1..j+1`, plus the daily costs of
loop days `0..j-1`. -/
theorem costEntry_sum (u : ℚ) (c : Nat → ℚ) (L : Nat) (j m : Nat)
    (hm : j + 1 ≤ m) :
    ((List.range (j + 1)).map (costEntry u c L m)).sum
      = u * (1 + (((j + 1) / L : Nat) : ℚ)) + ((List.range j).map c).sum := by
  induction j with
  | zero =>
    have h1 : costEntry u c L m 0 = u + if 1 % L = 0 then u else 0 := by
      simp [costEntry, hm]
    rw [range_map_succ, h1]
    by_cases hL : 1 % L = 0
    · have hL1 : L = 1 := by
        rcases L with _ | _ | L
        · simp at hL
        · rfl
        · rw [Nat.mod_eq_of_lt (by omega)] at hL
          exact absurd hL one_ne_zero
      subst hL1
      rw [if_pos hL]
      norm_num
      ring
    · have h0 : (1 : Nat) / L = 0 := by
        rcases L with _ | _ | L
        · rfl
        · exact absurd rfl hL
        · exact Nat.div_eq_of_lt (by omega)
      rw [if_neg hL, h0]
      norm_num
  | succ j ih =>
    rw [range_map_succ (n := j + 1), List.sum_append, ih (by omega)]
    have hentry : costEntry u c L m (j + 1)
        = c j + if L ∣ (j + 1 + 1) then u else 0 := by
      have h2 : j + 1 + 1 ≤ m := hm
      simp only [costEntry, if_neg (Nat.succ_ne_zero j), Nat.add_sub_cancel,
        h2, and_true]
      simp only [Nat.dvd_iff_mod_eq_zero]
    have hdiv : ((j + 1 + 1) / L : Nat)
        = (j + 1) / L + if L ∣ (j + 1 + 1) then 1 else 0 :=
      Nat.succ_div (j + 1) L
    rw [hentry, hdiv, range_map_succ (n := j), List.sum_append]
    by_cases hd : L ∣ (j + 1 + 1) <;> simp [hd] <;> push_cast <;> ring

theorem runLoop_eq (p : SimulationParameters) (data : List Row)
    (mode : Bool) :
    runLoop p data mode =
      { on_net_costs := (List.range (p.time_horizon_days + 1)).map
          (costEntry p.upfront_hardware_cost_on_net
            (on_net_total_cost p data mode) (hardware_life_cycle_days p)
            p.time_horizon_days)
        off_net_costs := (List.range (p.time_horizon_days + 1)).map
          (costEntry p.upfront_hardware_cost_off_net
            (off_net_total_cost p data mode) (hardware_life_cycle_days p)
            p.time_horizon_days)
        sent_requests := (List.range p.time_horizon_days).map
          fun d => (dailyRow data d).num_requests
        sent_data_gb :=
          (List.range p.time_horizon_days).map (daily_data_volume p data)
        active_users := (List.range p.time_horizon_days).map
          fun d => (dailyRow data d).num_users } :=
  runLoop_closed p data mode p.time_horizon_days

theorem cumsum_costEntry_getD (u : ℚ) (c : Nat → ℚ) (L T k : Nat)
    (hk : k < T) :
    (cumsum (((List.range (T + 1)).map (costEntry u c L T)).take T)).getD k 0
      = u * (1 + (((k + 1) / L : Nat) : ℚ)) + ((List.range k).map c).sum := by
  rw [← List.map_take, List.take_range, min_eq_left (Nat.le_succ T)]
  unfold cumsum
  rw [List.length_map, List.length_range, getD_range_map _ _ hk,
    ← List.map_take, List.take_range, min_eq_left hk]
  exact costEntry_sum u c L k T hk

/-- Closed form of the output timeline: row `j` (0-based; `Day = j + 1`)
carries the cumulative costs through loop day `j - 1` — the seed, one
lifecycle refresh per boundary in `1..j+1`, and the daily costs of loop
days `0..j-1` (the slice `costs[:T_days]` drops the most recent day's
cost) — together with day `j`'s requests, volume and users. -/
theorem timeline_eq (p : SimulationParameters) (data : List Row)
    (mode : Bool) :
    timeline p data mode = (List.range p.time_horizon_days).map fun j =>
      { day := j + 1
        on_net_cost := p.upfront_hardware_cost_on_net *
            (1 + (((j + 1) / hardware_life_cycle_days p : Nat) : ℚ)) +
          ((List.range j).map (on_net_total_cost p data mode)).sum
        off_net_cost := p.upfront_hardware_cost_off_net *
            (1 + (((j + 1) / hardware_life_cycle_days p : Nat) : ℚ)) +
          ((List.range j).map (off_net_total_cost p data mode)).sum
        sent_requests := (dailyRow data j).num_requests
        sent_data_volume_gb := daily_data_volume p data j
        active_users := (dailyRow data j).num_users } := by
  simp only [timeline, runLoop_eq]
  apply List.map_congr_left
  intro j hj
  rw [List.mem_range] at hj
  have hon := cumsum_costEntry_getD p.upfront_hardware_cost_on_net
    (on_net_total_cost p data mode) (hardware_life_cycle_days p)
    p.time_horizon_days j hj
  have hoff := cumsum_costEntry_getD p.upfront_hardware_cost_off_net
    (off_net_total_cost p data mode) (hardware_life_cycle_days p)
    p.time_horizon_days j hj
  have hreq := getD_range_map (fun d => (dailyRow data d).num_requests) 0 hj
  have hvol := getD_range_map (daily_data_volume p data) 0 hj
  have husers := getD_range_map (fun d => (dailyRow data d).num_users) 0 hj
  rw [hon, hoff, hreq, hvol, husers]

/-- Row `j` of the timeline, for `j < time_horizon_days`. -/
theorem timeline_getD (p : SimulationParameters) (data : List Row)
    (mode : Bool) (j : Nat) (hj : j < p.time_horizon_days) :
    (timeline p data mode).getD j default =
      { day := j + 1
        on_net_cost := p.upfront_hardware_cost_on_net *
            (1 + (((j + 1) / hardware_life_cycle_days p : Nat) : ℚ)) +
          ((List.range j).map (on_net_total_cost p data mode)).sum
        off_net_cost := p.upfront_hardware_cost_off_net *
            (1 + (((j + 1) / hardware_life_cycle_days p : Nat) : ℚ)) +
          ((List.range j).map (off_net_total_cost p data mode)).sum
        sent_requests := (dailyRow data j).num_requests
        sent_data_volume_gb := daily_data_volume p data j
        active_users := (dailyRow data j).num_users } := by
  rw [timeline_eq, getD_range_map _ _ hj]

/-- Difference of two consecutive cumulative rows, as pure algebra on the
closed forms. -/
theorem entry_sum_diff (u : ℚ) (c : Nat → ℚ) (L j : Nat) :
    (u * (1 + (((j + 1 + 1) / L : Nat) : ℚ)) +
        ((List.range (j + 1)).map c).sum) -
      (u * (1 + (((j + 1) / L : Nat) : ℚ)) + ((List.range j).map c).sum)
      = c j + if (j + 2) % L = 0 then u else 0 := by
  rw [range_map_succ (n := j), List.sum_append, Nat.succ_div (j + 1) L]
  have h12 : j + 1 + 1 = j + 2 := rfl
  rw [h12]
  simp only [List.sum_cons, List.sum_nil]
  by_cases hd : L ∣ (j + 2)
  · rw [if_pos hd, if_pos (Nat.dvd_iff_mod_eq_zero.mp hd)]
    push_cast
    ring
  · rw [if_neg hd, if_neg (fun h => hd (Nat.dvd_iff_mod_eq_zero.mpr h))]
    push_cast
    ring

/-- The increment of the cumulative cost columns between timeline rows
`Day j+1` and `Day j+2`: the daily cost of loop day `j`, plus the extra
upfront charge exactly when `j + 2` is a lifecycle boundary. -/
theorem row_increment (p : SimulationParameters) (data : List Row)
    (mode : Bool) (j : Nat) (h2 : j + 2 ≤ p.time_horizon_days) :
    (((timeline p data mode).getD (j + 1) default).on_net_cost -
        ((timeline p data mode).getD j default).on_net_cost
      = on_net_total_cost p data mode j +
        if (j + 2) % hardware_life_cycle_days p = 0 then
          p.upfront_hardware_cost_on_net else 0) ∧
    (((timeline p data mode).getD (j + 1) default).off_net_cost -
        ((timeline p data mode).getD j default).off_net_cost
      = off_net_total_cost p data mode j +
        if (j + 2) % hardware_life_cycle_days p = 0 then
          p.upfront_hardware_cost_off_net else 0) := by
  rw [timeline_getD p data mode (j + 1) (by omega),
    timeline_getD p data mode j (by omega)]
  exact ⟨entry_sum_diff _ _ _ j, entry_sum_diff _ _ _ j⟩

theorem getD_map_row {i : Nat} (g : Row → Row) (l : List Row)
    (hi : i < l.length) :
    (l.map g).getD i ⟨0, 0⟩ = g (l.getD i ⟨0, 0⟩) := by
  rw [List.getD_eq_getElem?_getD, List.getElem?_map,
    List.getD_eq_getElem?_getD, List.getElem?_eq_getElem hi]
  rfl

theorem meanUsers_adjust (p : SimulationParameters) (data : List Row) :
    meanUsers (adjust_dataset p data)
      = meanUsers data * (p.avg_num_users / meanUsers data) := by
  unfold meanUsers adjust_dataset
  simp only [List.map_map, Function.comp_def, List.length_map]
  rw [List.sum_map_mul_right]
  exact mul_div_right_comm _ _ _

/-! ## Concrete instances used by counterexamples and witnesses -/

/-- Canvas-mode run with `T = 1`, one dataset row, request size 1 GB. -/
def pC1 : SimulationParameters :=
  { time_horizon_days := 1
    avg_request_size_kb := 1048576
    avg_num_users := 100
    off_net_bandwidth_cost_per_gb := 2
    on_net_bandwidth_cost_per_gb := 1
    upfront_hardware_cost_off_net := 20
    upfront_hardware_cost_on_net := 10 }

def dC1 : List Row := [⟨100, 5⟩]

/-- AWS-bandwidth instance: one row with 86400 requests (1 request/s),
request size `1048576` KB, SLA 100 %, link cost 30 $/Gbps/month. -/
def pC2 : SimulationParameters :=
  { time_horizon_days := 1
    avg_request_size_kb := 1048576
    avg_num_users := 1
    off_net_bandwidth_cost_per_gb := 0
    transfer_link_cost_per_gbps := 30
    sla_percentage := 100 }

def dC2 : List Row := [⟨1, 86400⟩]

/-- The spec's §8 normalization scenario: mean users already 150. -/
def pC3 : SimulationParameters :=
  { time_horizon_days := 3
    avg_request_size_kb := 1024
    avg_num_users := 150
    off_net_bandwidth_cost_per_gb := 1 / 20
    on_net_bandwidth_cost_per_gb := 1 / 10 }

def dC3 : List Row := [⟨100, 1000⟩, ⟨200, 2000⟩, ⟨150, 1500⟩]

/-! ## C1 — cumulative cost columns -/

/-- C1, counterexample: in the `T = 1` Canvas run `pC1`/`dC1`, the Day-1
on-net cumulative cost is *not* the upfront cost plus day 1's daily cost
(the code's `cumsum(costs[:T_days])` slice drops the day's cost: the row
holds the seed alone, 10, not 10 + 5). -/
theorem C1_counterexample :
    ((timeline pC1 dC1 false).getD 0 default).on_net_cost ≠
      pC1.upfront_hardware_cost_on_net +
        ((List.range 1).map (on_net_total_cost pC1 dC1 false)).sum := by
  rw [timeline_getD pC1 dC1 false 0 (by decide)]
  norm_num [pC1, dC1, hardware_life_cycle_days, on_net_total_cost,
    daily_data_volume, dailyRow, avg_request_size_gb, List.range_succ]

/-- C1, amended: row `Day j+1` of the timeline equals the upfront cost
(times one plus the number of lifecycle boundaries in `1..j+1`) plus the
sum of the daily costs of loop days `0..j-1` — i.e. of 1-based days
`1..j`, one day short of the claim's `1..j+1`; in particular the final
row excludes the last day's daily cost. -/
theorem C1_cumulative_amended (p : SimulationParameters) (data : List Row)
    (mode : Bool) (_hd : data ≠ []) (j : Nat)
    (hj : j < p.time_horizon_days) :
    ((timeline p data mode).getD j default).day = j + 1 ∧
    ((timeline p data mode).getD j default).on_net_cost
      = p.upfront_hardware_cost_on_net *
          (1 + (((j + 1) / hardware_life_cycle_days p : Nat) : ℚ)) +
        ((List.range j).map (on_net_total_cost p data mode)).sum ∧
    ((timeline p data mode).getD j default).off_net_cost
      = p.upfront_hardware_cost_off_net *
          (1 + (((j + 1) / hardware_life_cycle_days p : Nat) : ℚ)) +
        ((List.range j).map (off_net_total_cost p data mode)).sum := by
  rw [timeline_getD p data mode j hj]
  exact ⟨rfl, rfl, rfl⟩

/-- Witness for C1's amended theorem at `pC1`/`dC1`, row 0. -/
theorem C1_cumulative_amended_witness :
    (dC1 ≠ [] ∧ 0 < pC1.time_horizon_days) ∧
    (((timeline pC1 dC1 false).getD 0 default).day = 0 + 1 ∧
     ((timeline pC1 dC1 false).getD 0 default).on_net_cost
       = pC1.upfront_hardware_cost_on_net *
           (1 + (((0 + 1) / hardware_life_cycle_days pC1 : Nat) : ℚ)) +
         ((List.range 0).map (on_net_total_cost pC1 dC1 false)).sum ∧
     ((timeline pC1 dC1 false).getD 0 default).off_net_cost
       = pC1.upfront_hardware_cost_off_net *
           (1 + (((0 + 1) / hardware_life_cycle_days pC1 : Nat) : ℚ)) +
         ((List.range 0).map (off_net_total_cost pC1 dC1 false)).sum) :=
  ⟨⟨by decide, by decide⟩,
    C1_cumulative_amended pC1 dC1 false (by decide) 0 (by decide)⟩

/-! ## C2 — AWS bandwidth formula -/

/-- C2: the source's `compute_aws_bandwidth` divides by an extra factor
of 1024 relative to the claimed formula (whose KB→GB conversion
`avg_request_size_kb / 1_048_576` is the one the source itself uses, with
that comment, on `run_simulation` line 28).  Both components come out
1024× smaller than claimed, uniformly; at `pC2`/`dC2` (1 request/s of
1048576-KB requests, SLA 100 %) the code reports 1/1024 Gbps where the
claimed formula gives 1 Gbps. -/
theorem C2_bandwidth_bug :
    (∀ (p : SimulationParameters) (data : List Row),
      (compute_aws_bandwidth p data).1 * 1024
          = (compute_aws_bandwidth_specified p data).1 ∧
      (compute_aws_bandwidth p data).2 * 1024
          = (compute_aws_bandwidth_specified p data).2) ∧
    compute_aws_bandwidth pC2 dC2 = (1 / 1024, 1 / 1024) ∧
    compute_aws_bandwidth_specified pC2 dC2 = (1, 1) := by
  refine ⟨fun p data => ?_,
    by norm_num [compute_aws_bandwidth, pC2, dC2, Prod.ext_iff],
    by norm_num [compute_aws_bandwidth_specified, pC2, dC2, Prod.ext_iff]⟩
  constructor <;>
    · dsimp only [compute_aws_bandwidth, compute_aws_bandwidth_specified]
      ring

/-! ## C3 — normalization invariant -/

/-- C3: normalization multiplies every row's users and requests by
`factor = avg_num_users / mean(num_users)`; afterwards the mean user
count equals the target and every row's requests-per-user ratio is
unchanged (exact rational arithmetic). -/
theorem C3_normalization (p : SimulationParameters) (data : List Row)
    (_hne : data ≠ []) (hmean : 0 < meanUsers data)
    (hU : 0 < p.avg_num_users) :
    meanUsers (adjust_dataset p data) = p.avg_num_users ∧
    ∀ i, i < data.length →
      ((adjust_dataset p data).getD i ⟨0, 0⟩).num_users
          = (data.getD i ⟨0, 0⟩).num_users *
              (p.avg_num_users / meanUsers data) ∧
      ((adjust_dataset p data).getD i ⟨0, 0⟩).num_requests
          = (data.getD i ⟨0, 0⟩).num_requests *
              (p.avg_num_users / meanUsers data) ∧
      ((adjust_dataset p data).getD i ⟨0, 0⟩).num_requests /
          ((adjust_dataset p data).getD i ⟨0, 0⟩).num_users
        = (data.getD i ⟨0, 0⟩).num_requests /
            (data.getD i ⟨0, 0⟩).num_users := by
  have hfac : p.avg_num_users / meanUsers data ≠ 0 :=
    div_ne_zero hU.ne' hmean.ne'
  refine ⟨?_, ?_⟩
  · rw [meanUsers_adjust, mul_comm, div_mul_cancel₀ _ hmean.ne']
  · intro i hi
    have hadj : (adjust_dataset p data).getD i ⟨0, 0⟩
        = ⟨(data.getD i ⟨0, 0⟩).num_users *
             (p.avg_num_users / meanUsers data),
           (data.getD i ⟨0, 0⟩).num_requests *
             (p.avg_num_users / meanUsers data)⟩ :=
      getD_map_row _ data hi
    rw [hadj]
    exact ⟨rfl, rfl, mul_div_mul_right _ _ hfac⟩

/-- Witness for C3 at the spec's own scenario (mean already equals the
150-user target, so the factor is 1). -/
theorem C3_normalization_witness :
    (dC3 ≠ [] ∧ 0 < meanUsers dC3 ∧ 0 < pC3.avg_num_users) ∧
    meanUsers (adjust_dataset pC3 dC3) = pC3.avg_num_users :=
  ⟨⟨by simp [dC3], by norm_num [meanUsers, dC3], by norm_num [pC3]⟩,
    (C3_normalization pC3 dC3 (by simp [dC3])
      (by norm_num [meanUsers, dC3]) (by norm_num [pC3])).1⟩

/-! ## C4 — lifecycle hardware refresh -/

/-- Canvas-mode run with a 1-year lifecycle over a 400-day horizon. -/
def pC4 : SimulationParameters :=
  { time_horizon_days := 400
    avg_request_size_kb := 1048576
    avg_num_users := 100
    off_net_bandwidth_cost_per_gb := 2
    on_net_bandwidth_cost_per_gb := 1
    hardware_cost_on_net_per_month := 30
    hardware_cost_off_net_per_month := 60
    upfront_hardware_cost_on_net := 10
    upfront_hardware_cost_off_net := 20
    hardware_life_cycle_years := 1 }

def dC4 : List Row := [⟨100, 5⟩]

/-- C4: (1) the extra upfront charge enters the cumulative columns at day
`d+1` exactly when `(d+1) % hardware_life_cycle_days = 0`; (2) in the
`hardware_life_cycle_years = 1`, `time_horizon_days = 400` run, beyond
the day-0 seed exactly one extra charge occurs, at timeline day 365
(`j = 363` marks the increment between rows `Day 364` and `Day 365`);
(3) when the lifecycle exceeds the horizon, no refresh beyond the seed
ever occurs. -/
theorem C4_lifecycle :
    (∀ (p : SimulationParameters) (data : List Row) (mode : Bool) (j : Nat),
      j + 2 ≤ p.time_horizon_days →
      (((timeline p data mode).getD (j + 1) default).on_net_cost -
          ((timeline p data mode).getD j default).on_net_cost
        = on_net_total_cost p data mode j +
          if (j + 2) % hardware_life_cycle_days p = 0 then
            p.upfront_hardware_cost_on_net else 0) ∧
      (((timeline p data mode).getD (j + 1) default).off_net_cost -
          ((timeline p data mode).getD j default).off_net_cost
        = off_net_total_cost p data mode j +
          if (j + 2) % hardware_life_cycle_days p = 0 then
            p.upfront_hardware_cost_off_net else 0)) ∧
    (((timeline pC4 dC4 false).getD 0 default).on_net_cost
        = pC4.upfront_hardware_cost_on_net ∧
      ∀ j : Nat, j + 2 ≤ 400 →
        ((timeline pC4 dC4 false).getD (j + 1) default).on_net_cost -
            ((timeline pC4 dC4 false).getD j default).on_net_cost
          = on_net_total_cost pC4 dC4 false j +
            if j = 363 then pC4.upfront_hardware_cost_on_net else 0) ∧
    (∀ (p : SimulationParameters) (data : List Row) (mode : Bool) (j : Nat),
      p.time_horizon_days < hardware_life_cycle_days p →
      j < p.time_horizon_days →
      ((timeline p data mode).getD j default).on_net_cost
          = p.upfront_hardware_cost_on_net +
            ((List.range j).map (on_net_total_cost p data mode)).sum ∧
      ((timeline p data mode).getD j default).off_net_cost
          = p.upfront_hardware_cost_off_net +
            ((List.range j).map (off_net_total_cost p data mode)).sum) := by
  refine ⟨fun p data mode j hj => row_increment p data mode j hj,
    ⟨?_, ?_⟩, ?_⟩
  · rw [timeline_getD pC4 dC4 false 0 (by decide)]
    norm_num [pC4, hardware_life_cycle_days]
  · intro j hj
    have h := (row_increment pC4 dC4 false j
      (show j + 2 ≤ pC4.time_horizon_days from hj)).1
    have hL : hardware_life_cycle_days pC4 = 365 := rfl
    rw [hL] at h
    rw [h]
    congr 1
    by_cases hj363 : j = 363
    · subst hj363
      norm_num
    · rw [if_neg (by omega), if_neg hj363]
  · intro p data mode j hL hj
    have hdiv : ((j + 1) / hardware_life_cycle_days p : Nat) = 0 :=
      Nat.div_eq_of_lt (by omega)
    refine ⟨?_, ?_⟩ <;>
      simp only [timeline_getD p data mode j hj, hdiv, Nat.cast_zero] <;>
      ring

/-- Witness for C4 at the `j = 363` boundary of the 400-day run. -/
theorem C4_lifecycle_witness :
    (363 + 2 ≤ (400 : Nat)) ∧
    ((timeline pC4 dC4 false).getD (363 + 1) default).on_net_cost -
        ((timeline pC4 dC4 false).getD 363 default).on_net_cost
      = on_net_total_cost pC4 dC4 false 363 +
        (if (363 : Nat) = 363 then pC4.upfront_hardware_cost_on_net else 0) :=
  ⟨by decide, C4_lifecycle.2.1.2 363 (by decide)⟩

/-! ## C5 — cyclic dataset replay -/

def pC5 : SimulationParameters :=
  { time_horizon_days := 5
    avg_request_size_kb := 1024
    avg_num_users := 10
    off_net_bandwidth_cost_per_gb := 1 }

def dC5 : List Row := [⟨10, 1⟩, ⟨20, 2⟩]

/-- C5: with the horizon longer than the dataset, dataset row `i` is
consumed at simulation days `i+1, i+1+len, i+1+2·len, ...` — the timeline
rows at those days show row `i`'s `num_requests` and `num_users`
(replay via `d mod len`). -/
theorem C5_cyclic_replay (p : SimulationParameters) (data : List Row)
    (mode : Bool) (i m : Nat) (_hlen : data.length < p.time_horizon_days)
    (hi : i < data.length)
    (hday : i + 1 + m * data.length ≤ p.time_horizon_days) :
    ((timeline p data mode).getD (i + m * data.length) default).day
        = i + 1 + m * data.length ∧
    ((timeline p data mode).getD (i + m * data.length) default).sent_requests
        = (data.getD i ⟨0, 0⟩).num_requests ∧
    ((timeline p data mode).getD (i + m * data.length) default).active_users
        = (data.getD i ⟨0, 0⟩).num_users := by
  have hj : i + m * data.length < p.time_horizon_days := by omega
  have hmod : (i + m * data.length) % data.length = i := by
    rw [Nat.add_mul_mod_self_right]
    exact Nat.mod_eq_of_lt hi
  rw [timeline_getD p data mode _ hj]
  refine ⟨?_, ?_, ?_⟩
  · show i + m * data.length + 1 = i + 1 + m * data.length
    omega
  · show (dailyRow data (i + m * data.length)).num_requests = _
    unfold dailyRow
    rw [hmod]
  · show (dailyRow data (i + m * data.length)).num_users = _
    unfold dailyRow
    rw [hmod]

/-- Witness for C5: row 1 of a 2-row dataset, revisited at day 4 of a
5-day horizon (`m = 1`). -/
theorem C5_cyclic_replay_witness :
    (dC5.length < pC5.time_horizon_days ∧ 1 < dC5.length ∧
      1 + 1 + 1 * dC5.length ≤ pC5.time_horizon_days) ∧
    (((timeline pC5 dC5 false).getD (1 + 1 * dC5.length) default).day
        = 1 + 1 + 1 * dC5.length ∧
     ((timeline pC5 dC5 false).getD
          (1 + 1 * dC5.length) default).sent_requests
        = (dC5.getD 1 ⟨0, 0⟩).num_requests ∧
     ((timeline pC5 dC5 false).getD
          (1 + 1 * dC5.length) default).active_users
        = (dC5.getD 1 ⟨0, 0⟩).num_users) :=
  ⟨⟨by decide, by decide, by decide⟩,
    C5_cyclic_replay pC5 dC5 false 1 1 (by decide) (by decide) (by decide)⟩

/-! ## C6 — Canvas-mode recommendation -/

/-- Degenerate all-zero Canvas run used as the C6 witness input. -/
def pC6 : SimulationParameters :=
  { time_horizon_days := 1
    avg_request_size_kb := 0
    avg_num_users := 1
    off_net_bandwidth_cost_per_gb := 0 }

def dC6 : List Row := [⟨0, 0⟩]

/-- The results `runSimulationE pC6 dC6 false` produces: one all-zero
row; equal final costs resolve to the on-net recommendation. -/
def rC6 : SimulationResults :=
  { timeline := [⟨1, 0, 0, 0, 0, 0⟩]
    final_recommendation := "On-net solution is more cost-effective."
    aws_transfer_link_cost := 0
    required_bandwidth_gbps := 0 }

/-- C6: in Canvas mode the recommendation names off-net exactly when the
final cumulative off-net cost is strictly below the final on-net cost,
and names on-net otherwise — including at exact equality. -/
theorem C6_canvas_recommendation (p : SimulationParameters)
    (data : List Row) (r : SimulationResults)
    (hr : runSimulationE p data false = .ok r) :
    (r.final_recommendation = "Off-net solution is more cost-effective." ↔
      (r.timeline.getLastD default).off_net_cost <
        (r.timeline.getLastD default).on_net_cost) ∧
    (r.final_recommendation = "On-net solution is more cost-effective." ↔
      ¬ (r.timeline.getLastD default).off_net_cost <
          (r.timeline.getLastD default).on_net_cost) := by
  simp only [runSimulationE] at hr
  split at hr
  · exact Except.noConfusion hr
  · split at hr
    · exact Except.noConfusion hr
    · rename_i lastRow heq
      simp only [Bool.false_eq_true, if_false, Except.ok.injEq] at hr
      subst hr
      simp only [List.getLastD_eq_getLast?, heq, Option.getD_some]
      by_cases hlt : lastRow.off_net_cost < lastRow.on_net_cost <;>
        simp [hlt]

/-- Witness for C6 at the all-zero run (equal totals, on-net verdict). -/
theorem C6_canvas_recommendation_witness :
    runSimulationE pC6 dC6 false = .ok rC6 ∧
    ((rC6.final_recommendation = "Off-net solution is more cost-effective." ↔
        (rC6.timeline.getLastD default).off_net_cost <
          (rC6.timeline.getLastD default).on_net_cost) ∧
      (rC6.final_recommendation = "On-net solution is more cost-effective." ↔
        ¬ (rC6.timeline.getLastD default).off_net_cost <
            (rC6.timeline.getLastD default).on_net_cost)) := by
  have htl : timeline pC6 dC6 false = [⟨1, 0, 0, 0, 0, 0⟩] := by
    rw [timeline_eq]
    norm_num [pC6, dC6, List.range_succ, hardware_life_cycle_days,
      dailyRow, daily_data_volume, avg_request_size_gb,
      on_net_total_cost, off_net_total_cost]
  have hrun : runSimulationE pC6 dC6 false = .ok rC6 := by
    simp only [runSimulationE, htl]
    norm_num [pC6, dC6, hardware_life_cycle_days, rC6]
  exact ⟨hrun, C6_canvas_recommendation pC6 dC6 rC6 hrun⟩

/-! ## C7 — normalization on degenerate datasets -/

def pC7 : SimulationParameters :=
  { time_horizon_days := 1
    avg_request_size_kb := 1
    avg_num_users := 5
    off_net_bandwidth_cost_per_gb := 0 }

/-- C7, counterexample: on the zero-mean dataset `[⟨0, 10⟩]` (and on the
empty dataset) normalization does *not* fail — it returns successfully.
The source's `adjust_dataset` contains no validation and no operation
that raises: NumPy float division by a zero mean only warns. -/
theorem C7_counterexample :
    meanUsers [(⟨0, 10⟩ : Row)] = 0 ∧
    exceptOk (adjust_datasetE pC7 [⟨0, 10⟩]) = true ∧
    adjust_datasetE pC7 [] = .ok [] :=
  ⟨by norm_num [meanUsers], rfl, rfl⟩

/-- C7, amended: normalization never raises — on every input, including
the empty and the zero-mean dataset, `adjust_dataset` silently returns a
(possibly degenerate) dataset. -/
theorem C7_no_error_amended :
    ∀ (p : SimulationParameters) (data : List Row),
      exceptOk (adjust_datasetE p data) = true :=
  fun _ _ => rfl

/-! ## C8 — zero time horizon -/

def pC8 : SimulationParameters :=
  { time_horizon_days := 0
    avg_request_size_kb := 1
    avg_num_users := 1
    off_net_bandwidth_cost_per_gb := 0 }

def dC8 : List Row := [⟨1, 1⟩]

/-- C8, counterexample: at `time_horizon_days = 0` the run raises the
pandas index error from `iloc[-1]` on the empty timeline — after the
loop and the timeline construction — not an InvalidInput validation
error before the loop. -/
theorem C8_counterexample :
    runSimulationE pC8 dC8 false = .error PyError.indexError ∧
    runSimulationE pC8 dC8 false ≠ .error PyError.invalidInput := by
  refine ⟨rfl, fun h => ?_⟩
  have h2 : (Except.error PyError.indexError :
      Except PyError SimulationResults) = .error .invalidInput := h
  simp at h2

/-- C8, amended: for `time_horizon_days = 0` (in either mode, with any
dataset) the run fails with the index error raised when reading the last
row of the empty timeline, and returns no results. -/
theorem C8_postloop_amended (p : SimulationParameters) (data : List Row)
    (mode : Bool) (h : p.time_horizon_days = 0) :
    runSimulationE p data mode = .error PyError.indexError := by
  unfold runSimulationE
  rw [if_neg fun hc => absurd hc.1 (by omega)]
  have htl : timeline p data mode = [] := by
    unfold timeline
    rw [h]
    rfl
  rw [htl]
  rfl

/-- Witness for C8's amended theorem. -/
theorem C8_postloop_amended_witness :
    pC8.time_horizon_days = 0 ∧
    runSimulationE pC8 dC8 false = .error PyError.indexError :=
  ⟨rfl, C8_postloop_amended pC8 dC8 false rfl⟩

/-! ## C9 — per-day AWS recomputation ≡ hoisted computation -/

/-- C9: `compute_aws_bandwidth` depends only on the dataset and the
parameters, neither of which the day loop modifies, so re-evaluating it
on every iteration (as the source does) produces the same run results as
evaluating it once before the loop and reusing the pair. -/
theorem C9_hoisting_equivalent :
    ∀ (p : SimulationParameters) (data : List Row),
      runSimulationE p data true = runSimulationHoistedE p data :=
  fun _ _ => rfl

/-! ## C10 — mode non-interference of the off-net/traffic columns -/

/-- C10: the Off-Net Cost, Sent Requests, Sent Data Volume and Active
Users columns of the timeline are identical in AWS and Canvas modes (the
mode influences only the on-net cost column and the non-timeline result
fields). -/
theorem C10_mode_noninterference :
    ∀ (p : SimulationParameters) (data : List Row),
      (timeline p data true).map (fun row =>
          (row.off_net_cost, row.sent_requests, row.sent_data_volume_gb,
            row.active_users))
        = (timeline p data false).map (fun row =>
          (row.off_net_cost, row.sent_requests, row.sent_data_volume_gb,
            row.active_users)) := by
  intro p data
  rw [timeline_eq p data true, timeline_eq p data false, List.map_map,
    List.map_map]
  rfl
